import Mathlib

set_option maxRecDepth 100000

/-!
Shallow embedding of `src/linux/arch.c` (honggfuzz, Linux architecture layer):
the Launcher (`arch_launchChild`), the Reaper (`arch_reapChild`) and the
one-time init hook (`arch_archInit`).

System calls and external collaborators (setenv, prctl, personality,
setitimer, setrlimit, util_* stdio helpers, arch_ptrace* / arch_perf*)
are modelled as events recorded in a trace, with success/failure of each
fallible call supplied by an environment (`SysBehavior`, or oracle
functions for the reaper's collaborators).  Control flow, call arguments
and call order follow the C source line by line.
-/

/-- `struct timeval` as used in `struct itimerval` (seconds, microseconds). -/
structure TimeVal where
  tv_sec : Nat
  tv_usec : Nat
deriving DecidableEq, Repr

/-- `struct itimerval`: the recurring interval and the initial expiry value. -/
structure ITimerVal where
  it_interval : TimeVal
  it_value : TimeVal
deriving DecidableEq, Repr

/-- `struct rlimit`: soft (`rlim_cur`) and hard (`rlim_max`) limit. -/
structure RLimit where
  rlim_cur : Nat
  rlim_max : Nat
deriving DecidableEq, Repr

/-- POSIX `setitimer` semantics: the call arms the timer only when
`it_value` is nonzero; a call whose `it_value` is `{0, 0}` disables the
timer, whatever `it_interval` holds (`it_interval` is only loaded into the
timer when an armed timer expires). -/
def setitimerArms (it : ITimerVal) : Bool :=
  !(it.it_value.tv_sec == 0 && it.it_value.tv_usec == 0)

/-- The fields of `honggfuzz_t` read by `arch_launchChild`:
the NUL-terminated `cmdline` array (as a Lean list), the `fuzzStdin` and
`nullifyStdio` flags, the timeout `tmOut` (seconds) and the address-space
limit `asLimit` (MiB). -/
structure Honggfuzz where
  cmdline : List String
  fuzzStdin : Bool
  nullifyStdio : Bool
  tmOut : Nat
  asLimit : Nat
deriving DecidableEq, Repr

/-- Which fallible calls made by `arch_launchChild` succeed in a given run. -/
structure SysBehavior where
  setenvMallocOk : Bool
  setenvAsanOk : Bool
  prctlOk : Bool
  personalityOk : Bool
  setitimerProfOk : Bool
  setitimerRealOk : Bool
  setrlimitCpuOk : Bool
  setrlimitAsOk : Bool
  redirectStdinOk : Bool
  ptraceEnableOk : Bool
  execOk : Bool
deriving DecidableEq, Repr

/-- Events emitted by `arch_launchChild`, one per system call or
collaborator call, carrying the argument values the C code passes. -/
inductive LEvent where
  | setenv (name value : String)
  | prctlPdeathsig
  | personalityNoRandomize
  | setitimerProf (it : ITimerVal)
  | setitimerReal (it : ITimerVal)
  | setrlimitCpu (rl : RLimit)
  | setrlimitAs (rl : RLimit)
  | nullifyStdio
  | redirectStdin (path : String)
  | ptraceEnable
  | execvp (argv : List (Option String))
  | recoverStdio
  | logError (msg : String)
  | logDebug (msg : String)
  | logFatal (msg : String)
deriving DecidableEq, Repr

/-- Outcome of `arch_launchChild`: on success `execvp` replaces the process
image and the function never returns; every failure path returns `false`. -/
inductive LaunchOutcome where
  | execed
  | failed
deriving DecidableEq, Repr

/-- `#define ARGS_MAX 512` (line 85 of `arch.c`). -/
def ARGS_MAX : Nat := 512

/-- Modelled from the spec: `_HF_FILE_PLACEHOLDER` is defined in
`common.h`, which is not part of the sources given; the spec describes it
only as "a single reserved string recognized verbatim in the command-line
template" and writes it as `"@@"` in its scenarios. -/
def _HF_FILE_PLACEHOLDER : String := "@@"

/-- The argument-vector construction of `arch_launchChild` (lines 85-98):

    for (x = 0; x < ARGS_MAX && hfuzz->cmdline[x]; x++) {
        if (!hfuzz->fuzzStdin && strcmp(hfuzz->cmdline[x], _HF_FILE_PLACEHOLDER) == 0)
            args[x] = fileName;
        else
            args[x] = hfuzz->cmdline[x];
    }
    args[x++] = NULL;

The loop walks at most `ARGS_MAX` entries of the NUL-terminated template
(so a longer template is silently cut at `ARGS_MAX`), then the NULL
sentinel (modelled as `none`) is appended. -/
def buildArgs (fuzzStdin : Bool) (fileName : String) (cmdline : List String) :
    List (Option String) :=
  ((cmdline.take ARGS_MAX).map fun a =>
    if !fuzzStdin && (a == _HF_FILE_PLACEHOLDER) then some fileName else some a) ++ [none]

/-- The timeout block of `arch_launchChild` (lines 105-143): when
`hfuzz->tmOut` is nonzero, arm `ITIMER_PROF` with interval `tmOut`,
`ITIMER_REAL` with interval `2*tmOut` (both with `it_value = {0,0}`), and
`RLIMIT_CPU` with soft = hard = `2*tmOut`; each call that fails logs an
error and aborts the launch.  Returns the emitted events and whether the
block completed. -/
def armTimeouts (tmOut : Nat) (sys : SysBehavior) : List LEvent × Bool :=
  if tmOut = 0 then ([], true)
  else
    let it_prof : ITimerVal := ⟨⟨tmOut, 0⟩, ⟨0, 0⟩⟩
    let e1 := [LEvent.setitimerProf it_prof]
    if sys.setitimerProfOk = false then
      (e1 ++ [LEvent.logError "Couldnt set the ITIMER_PROF timer"], false)
    else
      let it_real : ITimerVal := ⟨⟨tmOut * 2, 0⟩, ⟨0, 0⟩⟩
      let e2 := e1 ++ [LEvent.setitimerReal it_real]
      if sys.setitimerRealOk = false then
        (e2 ++ [LEvent.logError "Couldnt set the ITIMER_REAL timer"], false)
      else
        let rl : RLimit := ⟨tmOut * 2, tmOut * 2⟩
        let e3 := e2 ++ [LEvent.setrlimitCpu rl]
        if sys.setrlimitCpuOk = false then
          (e3 ++ [LEvent.logError "Couldnt enforce the RLIMIT_CPU resource limit"], false)
        else (e3, true)

/-- The address-space block of `arch_launchChild` (lines 148-156): when
`hfuzz->asLimit` is nonzero, try `RLIMIT_AS` with soft = hard =
`asLimit * 1024 * 1024` bytes; failure is only logged at debug level and
the launch proceeds. -/
def limitAddressSpace (asLimit : Nat) (sys : SysBehavior) : List LEvent :=
  if asLimit = 0 then []
  else
    let rl : RLimit := ⟨asLimit * 1024 * 1024, asLimit * 1024 * 1024⟩
    if sys.setrlimitAsOk = false then
      [LEvent.setrlimitAs rl,
       LEvent.logDebug "Couldnt encforce the RLIMIT_AS resource limit, ignoring"]
    else [LEvent.setrlimitAs rl]

/-- `arch_launchChild` (lines 52-180), as the trace of calls it makes and
its outcome.  Steps, in source order: the two `setenv` calls, `prctl`
(parent-death signal), `personality` (disable ASLR), argument-vector
construction, the timeout block, the best-effort address-space limit,
optional stdio nullification, optional stdin redirection, ptrace enable,
and finally `execvp`; if `execvp` returns (failure), stdio is recovered,
a fatal message is logged, and `false` is returned. -/
def arch_launchChild (hfuzz : Honggfuzz) (fileName : String) (sys : SysBehavior) :
    List LEvent × LaunchOutcome :=
  let e1 := [LEvent.setenv "MALLOC_CHECK_" "3"]
  if sys.setenvMallocOk = false then
    (e1 ++ [LEvent.logError "setenv(MALLOC_CHECK_=3) failed"], .failed)
  else
    let e2 := e1 ++ [LEvent.setenv "ASAN_OPTIONS" "handle_segv=0:abort_on_error=1"]
    if sys.setenvAsanOk = false then
      (e2 ++ [LEvent.logError "setenv(ASAN_OPTIONS) failed"], .failed)
    else
      let e3 := e2 ++ [LEvent.prctlPdeathsig]
      if sys.prctlOk = false then
        (e3 ++ [LEvent.logError "prctl(PR_SET_PDEATHSIG, SIGKILL) failed"], .failed)
      else
        let e4 := e3 ++ [LEvent.personalityNoRandomize]
        if sys.personalityOk = false then
          (e4 ++ [LEvent.logError "personality(ADDR_NO_RANDOMIZE) failed"], .failed)
        else
          let args := buildArgs hfuzz.fuzzStdin fileName hfuzz.cmdline
          let e5 := e4 ++ [LEvent.logDebug "Launching"]
          let tres := armTimeouts hfuzz.tmOut sys
          let e6 := e5 ++ tres.1
          if tres.2 = false then (e6, .failed)
          else
            let e7 := e6 ++ limitAddressSpace hfuzz.asLimit sys
            let e8 := e7 ++ (if hfuzz.nullifyStdio then [LEvent.nullifyStdio] else [])
            if hfuzz.fuzzStdin && !sys.redirectStdinOk then
              (e8 ++ [LEvent.redirectStdin fileName], .failed)
            else
              let e9 := e8 ++ (if hfuzz.fuzzStdin then [LEvent.redirectStdin fileName] else [])
              let e10 := e9 ++ [LEvent.ptraceEnable]
              if sys.ptraceEnableOk = false then (e10, .failed)
              else
                let e11 := e10 ++ [LEvent.execvp args]
                if sys.execOk then (e11, .execed)
                else
                  (e11 ++ [LEvent.recoverStdio,
                           LEvent.logFatal "Failed to create new process"], .failed)

/-- A result of one `wait3` call in the reaper loop: either a non-positive
return value (retried by the inner `while`) or an observed state change of
process `pid` with raw status `status`. -/
inductive WaitRes where
  | nonpos
  | change (pid : Int) (status : Int)
deriving DecidableEq, Repr

/-- Events emitted by `arch_reapChild`: the perf-enable collaborator call
(with the file descriptor it produced), its failure, the debug log, the
ptrace-analysis call, and the perf-analysis call with the `perfFd` value it
receives (`none` models a read of the uninitialized `perfFd` variable). -/
inductive REvent where
  | perfEnable (pid : Int) (fd : Nat)
  | perfEnableFail (pid : Int)
  | logDebugStatus (pid status : Int)
  | ptraceAnalyze (status pid : Int)
  | perfAnalyze (fd : Option Nat)
deriving DecidableEq, Repr

/-- Outcome of the reaper loop on a finite list of wait results: `done`
models the `return` after a terminal classification, `fatal` models
`LOGMSG(l_FATAL, ...)` after a failed perf enable (modelled from the spec:
`log.c` is not part of the sources given; per spec section 7,
instrumentation-activation failure "is fatal to the whole engine"), and
`blocked` models a run whose wait-result list is exhausted while the loop
is still blocking.  Each constructor carries the events emitted so far. -/
inductive ReapResult where
  | done (events : List REvent)
  | fatal (events : List REvent)
  | blocked (events : List REvent)
deriving DecidableEq, Repr

/-- The events carried by a `ReapResult`. -/
def ReapResult.events : ReapResult → List REvent
  | .done es => es
  | .fatal es => es
  | .blocked es => es

/-- Prefix a list of already-emitted events onto a reaper outcome. -/
def ReapResult.addEvents (es : List REvent) : ReapResult → ReapResult
  | .done es2 => .done (es ++ es2)
  | .fatal es2 => .fatal (es ++ es2)
  | .blocked es2 => .blocked (es ++ es2)

/-- The loop body of `arch_reapChild` (lines 187-205), parameterized by the
perf-enable collaborator (`enableOk`, `enableFd`, standing for
`arch_perfEnable` and the descriptor it writes) and the trace-analysis
collaborator (`classify`, standing for `arch_ptraceAnalyze` applied to the
raw status and pid), consuming a finite list of `wait3` results.

The boolean argument is the `perfEnabled` flag.  Note that in the source
`int perfFd;` is declared inside the `for (;;)` body, so each iteration
has a fresh `perfFd` that is only assigned when the enable branch runs in
that same iteration; in an iteration where `perfEnabled` is already true,
`perfFd` stays uninitialized, modelled as `none`. -/
def reapGo (enableOk : Int → Bool) (enableFd : Int → Nat)
    (classify : Int → Int → Bool) : Bool → List WaitRes → ReapResult
  | _, [] => .blocked []
  | perfEnabled, .nonpos :: rest => reapGo enableOk enableFd classify perfEnabled rest
  | true, .change pid status :: rest =>
      let es := [REvent.logDebugStatus pid status, REvent.ptraceAnalyze status pid]
      if classify status pid then .done (es ++ [REvent.perfAnalyze none])
      else (reapGo enableOk enableFd classify true rest).addEvents es
  | false, .change pid status :: rest =>
      if enableOk pid then
        let fd := enableFd pid
        let es := [REvent.perfEnable pid fd, REvent.logDebugStatus pid status,
                   REvent.ptraceAnalyze status pid]
        if classify status pid then .done (es ++ [REvent.perfAnalyze (some fd)])
        else (reapGo enableOk enableFd classify true rest).addEvents es
      else .fatal [REvent.perfEnableFail pid]

/-- `arch_reapChild` (lines 182-206): the reaper loop started with
`perfEnabled = false`. -/
def arch_reapChild (enableOk : Int → Bool) (enableFd : Int → Nat)
    (classify : Int → Int → Bool) (ws : List WaitRes) : ReapResult :=
  reapGo enableOk enableFd classify false ws

/-- Whether a wait-result list contains at least one state change. -/
def hasChange : List WaitRes → Bool
  | [] => false
  | .nonpos :: rest => hasChange rest
  | .change _ _ :: _ => true

/-- Whether a reaper event is a call of the instrumentation-activate
collaborator (`arch_perfEnable`), successful or not. -/
def isActivate : REvent → Bool
  | .perfEnable _ _ => true
  | .perfEnableFail _ => true
  | _ => false

/-- Whether a launcher event is one of the three timeout-arming calls. -/
def isTimeoutArm : LEvent → Bool
  | .setitimerProf _ => true
  | .setitimerReal _ => true
  | .setrlimitCpu _ => true
  | _ => false

/-- A run environment in which every fallible call succeeds. -/
def sysAllOk : SysBehavior :=
  ⟨true, true, true, true, true, true, true, true, true, true, true⟩

/-- A run environment in which only `execvp` fails. -/
def sysExecFail : SysBehavior :=
  ⟨true, true, true, true, true, true, true, true, true, true, false⟩

/-- The configuration of the spec scenarios: template
`["/bin/target", "@@", "-v"]`, stdin-fuzzing off, timeout 5 seconds. -/
def hfuzzTm5 : Honggfuzz := ⟨["/bin/target", "@@", "-v"], false, false, 5, 0⟩

/-- Unfolding of `buildArgs` for templates within the argument bound: the
`take` is the identity. -/
theorem buildArgs_eq_of_le (fuzzStdin : Bool) (fileName : String) (cmdline : List String)
    (h : cmdline.length ≤ ARGS_MAX) :
    buildArgs fuzzStdin fileName cmdline =
      (cmdline.map fun a =>
        if !fuzzStdin && (a == _HF_FILE_PLACEHOLDER) then some fileName else some a)
      ++ [none] := by
  simp [buildArgs, List.take_of_length_le h]

/-- Claim C7: for a template within the supported argument count that
contains the file-placeholder exactly once (at position `i`), with
stdin-fuzzing disabled, the materialized vector has one entry per template
argument, carries the supplied file path at the placeholder position,
agrees with the template everywhere else, and ends with the null
sentinel. -/
theorem c7_single_placeholder (cmdline : List String) (fileName : String) (i : Nat)
    (hlen : cmdline.length ≤ ARGS_MAX)
    (hi : cmdline[i]? = some _HF_FILE_PLACEHOLDER)
    (huniq : ∀ j, j < cmdline.length → j ≠ i → cmdline[j]? ≠ some _HF_FILE_PLACEHOLDER) :
    (buildArgs false fileName cmdline).length = cmdline.length + 1 ∧
    (buildArgs false fileName cmdline)[i]? = some (some fileName) ∧
    (∀ j, j < cmdline.length → j ≠ i →
      (buildArgs false fileName cmdline)[j]? = (cmdline[j]?).map some) ∧
    (buildArgs false fileName cmdline)[cmdline.length]? = some none := by
  rw [buildArgs_eq_of_le false fileName cmdline hlen]
  have hilt : i < cmdline.length := by
    rcases List.getElem?_eq_some_iff.1 hi with ⟨h, _⟩
    exact h
  refine ⟨by simp, ?_, ?_, ?_⟩
  · rw [List.getElem?_append_left (by simpa using hilt), List.getElem?_map, hi]
    simp
  · intro j hj hne
    rw [List.getElem?_append_left (by simpa using hj), List.getElem?_map]
    rcases List.getElem?_eq_some_iff.1 (List.getElem?_eq_getElem hj) with ⟨_, _⟩
    have hnp : cmdline[j]? ≠ some _HF_FILE_PLACEHOLDER := huniq j hj hne
    rcases hx : cmdline[j]? with _ | a
    · simp
    · have : ¬(a == _HF_FILE_PLACEHOLDER) = true := by
        intro hb
        exact hnp (by rw [hx, show a = _HF_FILE_PLACEHOLDER from by simpa using hb])
      simp [this]
      intro h
      exact absurd (by simp [h]) this
  · rw [List.getElem?_append_right (by simp)]
    simp

/-- Claim C7 witness: the spec scenario, template `["/bin/target", "@@", "-v"]`
with file path `/tmp/case1`. -/
theorem c7_single_placeholder_witness :
    ((["/bin/target", "@@", "-v"] : List String).length ≤ ARGS_MAX) ∧
    ((buildArgs false "/tmp/case1" ["/bin/target", "@@", "-v"]).length =
        (["/bin/target", "@@", "-v"] : List String).length + 1 ∧
      (buildArgs false "/tmp/case1" ["/bin/target", "@@", "-v"])[1]? =
        some (some "/tmp/case1") ∧
      (∀ j, j < (["/bin/target", "@@", "-v"] : List String).length → j ≠ 1 →
        (buildArgs false "/tmp/case1" ["/bin/target", "@@", "-v"])[j]? =
          ((["/bin/target", "@@", "-v"] : List String)[j]?).map some) ∧
      (buildArgs false "/tmp/case1"
          ["/bin/target", "@@", "-v"])[(["/bin/target", "@@", "-v"] : List String).length]? =
        some none) :=
  ⟨by decide,
   c7_single_placeholder ["/bin/target", "@@", "-v"] "/tmp/case1" 1
     (by decide) (by decide) (by decide)⟩

/-- Claim C8 (amended) : for every template within the supported argument
count, with stdin-fuzzing enabled the materializer never substitutes the
placeholder: the output is the template verbatim plus the null sentinel. -/
theorem c8_stdin_no_substitution (cmdline : List String) (fileName : String)
    (hlen : cmdline.length ≤ ARGS_MAX) :
    buildArgs true fileName cmdline = cmdline.map some ++ [none] := by
  rw [buildArgs_eq_of_le true fileName cmdline hlen]
  simp

/-- Claim C8 witness: the spec scenario with stdin-fuzzing on. -/
theorem c8_stdin_no_substitution_witness :
    ((["/bin/target", "@@", "-v"] : List String).length ≤ ARGS_MAX) ∧
    buildArgs true "/tmp/case1" ["/bin/target", "@@", "-v"] =
      (["/bin/target", "@@", "-v"] : List String).map some ++ [none] :=
  ⟨by decide, c8_stdin_no_substitution ["/bin/target", "@@", "-v"] "/tmp/case1" (by decide)⟩

/-- Claim C8 counterexample: for a 513-argument template the output is not
the template verbatim plus the sentinel — the code truncates at
`ARGS_MAX = 512` even in stdin-fuzzing mode, so the claim's universal
quantification over every template fails. -/
theorem c8_oversized_counterexample :
    buildArgs true "/tmp/case1" (List.replicate 513 "a") ≠
      (List.replicate 513 "a").map some ++ [none] := by
  intro h
  have hl := congrArg List.length h
  simp [buildArgs, ARGS_MAX] at hl

/-- Claim C10 (amended): for every template within the supported argument
count, with stdin-fuzzing disabled, every position of the output whose
template argument is the placeholder carries the file path, and every
other position carries the template argument — in particular all `k`
occurrences are substituted when the placeholder occurs `k > 1` times. -/
theorem c10_all_occurrences (cmdline : List String) (fileName : String)
    (hlen : cmdline.length ≤ ARGS_MAX) (j : Nat) (a : String)
    (hj : cmdline[j]? = some a) :
    (buildArgs false fileName cmdline)[j]? =
      some (if a == _HF_FILE_PLACEHOLDER then some fileName else some a) := by
  rw [buildArgs_eq_of_le false fileName cmdline hlen]
  have hjlt : j < cmdline.length := by
    rcases List.getElem?_eq_some_iff.1 hj with ⟨h, _⟩
    exact h
  rw [List.getElem?_append_left (by simpa using hjlt), List.getElem?_map, hj]
  simp

/-- Claim C10 witness: a template with the placeholder at two positions;
both positions of the output carry the file path. -/
theorem c10_all_occurrences_witness :
    ((["/bin/t", "@@", "x", "@@"] : List String).length ≤ ARGS_MAX) ∧
    (["/bin/t", "@@", "x", "@@"] : List String)[1]? = some "@@" ∧
    (["/bin/t", "@@", "x", "@@"] : List String)[3]? = some "@@" ∧
    (buildArgs false "/tmp/case1" ["/bin/t", "@@", "x", "@@"])[1]? =
      some (if ("@@" : String) == _HF_FILE_PLACEHOLDER then some "/tmp/case1" else some "@@") ∧
    (buildArgs false "/tmp/case1" ["/bin/t", "@@", "x", "@@"])[3]? =
      some (if ("@@" : String) == _HF_FILE_PLACEHOLDER then some "/tmp/case1" else some "@@") :=
  ⟨by decide, by decide, by decide,
   c10_all_occurrences ["/bin/t", "@@", "x", "@@"] "/tmp/case1" (by decide) 1 "@@" (by decide),
   c10_all_occurrences ["/bin/t", "@@", "x", "@@"] "/tmp/case1" (by decide) 3 "@@" (by decide)⟩

/-- Claim C10 counterexample: a 513-argument template consisting entirely
of placeholder occurrences.  Position 512 of the template is a placeholder
occurrence, but position 512 of the output is the null sentinel, not the
file path: the occurrence was truncated away, so the claim's quantification
over every template fails. -/
theorem c10_truncated_occurrence_counterexample :
    (List.replicate 513 "@@")[512]? = some _HF_FILE_PLACEHOLDER ∧
    (buildArgs false "/tmp/case1" (List.replicate 513 "@@"))[512]? = some none ∧
    (some none : Option (Option String)) ≠ some (some "/tmp/case1") := by
  refine ⟨?_, ?_, by decide⟩
  · simp [_HF_FILE_PLACEHOLDER]
  · rw [buildArgs, List.getElem?_append_right (by simp [ARGS_MAX])]
    simp [ARGS_MAX]

/-- Claim C3 (amended): a template exceeding `ARGS_MAX` arguments is
silently truncated — the materializer behaves as on the first `ARGS_MAX`
arguments and proceeds, producing a 513-entry vector (512 arguments plus
the null sentinel); no construction error exists in the code. -/
theorem c3_truncates_silently (fuzzStdin : Bool) (fileName : String) (cmdline : List String)
    (hlen : ARGS_MAX < cmdline.length) :
    buildArgs fuzzStdin fileName cmdline =
      buildArgs fuzzStdin fileName (cmdline.take ARGS_MAX) ∧
    (buildArgs fuzzStdin fileName cmdline).length = ARGS_MAX + 1 := by
  constructor
  · simp [buildArgs, List.take_take]
  · simp [buildArgs]
    omega

/-- Claim C3 witness: a concrete 513-argument template is truncated to 512
arguments plus the sentinel. -/
theorem c3_truncates_silently_witness :
    (ARGS_MAX < (List.replicate 513 "a").length) ∧
    (buildArgs false "/tmp/case1" (List.replicate 513 "a") =
      buildArgs false "/tmp/case1" ((List.replicate 513 "a").take ARGS_MAX) ∧
    (buildArgs false "/tmp/case1" (List.replicate 513 "a")).length = ARGS_MAX + 1) :=
  ⟨by simp [ARGS_MAX],
   c3_truncates_silently false "/tmp/case1" (List.replicate 513 "a") (by simp [ARGS_MAX])⟩

/-- Claim C3 counterexample: on a 513-argument template the materializer
does not fail — it produces the truncated 513-entry vector (the first 512
arguments plus the null sentinel) and the launch proceeds, contrary to the
claimed construction error. -/
theorem c3_truncation_counterexample :
    buildArgs false "/tmp/case1" (List.replicate 513 "a") =
      List.replicate 512 (some "a") ++ [none] := by
  rw [buildArgs]
  rw [show (List.replicate 513 "a").take ARGS_MAX = List.replicate 512 "a" by
        simp [ARGS_MAX, List.take_replicate],
      List.map_replicate]
  norm_num [_HF_FILE_PLACEHOLDER]
  intro h
  exact absurd h (by decide)

/-- When the three timeout-arming calls succeed, the timeout block emits
exactly the three arming events (with the values taken from the source)
for a nonzero timeout, and nothing for a zero timeout, and completes. -/
theorem armTimeouts_of_ok (tmOut : Nat) (sys : SysBehavior)
    (h1 : sys.setitimerProfOk = true) (h2 : sys.setitimerRealOk = true)
    (h3 : sys.setrlimitCpuOk = true) :
    armTimeouts tmOut sys =
      (if tmOut = 0 then [] else
        [LEvent.setitimerProf ⟨⟨tmOut, 0⟩, ⟨0, 0⟩⟩,
         LEvent.setitimerReal ⟨⟨tmOut * 2, 0⟩, ⟨0, 0⟩⟩,
         LEvent.setrlimitCpu ⟨tmOut * 2, tmOut * 2⟩], true) := by
  unfold armTimeouts
  split <;> simp [h1, h2, h3]

/-- The address-space block never emits a timeout-arming event. -/
theorem limitAddressSpace_no_timeout_arm (asLimit : Nat) (sys : SysBehavior) :
    (limitAddressSpace asLimit sys).filter isTimeoutArm = [] := by
  unfold limitAddressSpace
  split
  · rfl
  · split <;> simp [isTimeoutArm]

/-- Claim C1: for every configured timeout `t > 0` (and provided the
hardening steps and the arming calls themselves succeed), the launcher
makes exactly three timeout-arming calls, configured with `t` (the
`ITIMER_PROF` CPU-time interval), `2*t` (the `ITIMER_REAL` wall-clock
interval) and `2*t` (the `RLIMIT_CPU` limit, soft = hard); for `t = 0` it
makes none, whatever the rest of the run does. -/
theorem c1_timeout_arming (hfuzz : Honggfuzz) (fileName : String) (sys : SysBehavior)
    (h1 : sys.setenvMallocOk = true) (h2 : sys.setenvAsanOk = true)
    (h3 : sys.prctlOk = true) (h4 : sys.personalityOk = true)
    (h5 : sys.setitimerProfOk = true) (h6 : sys.setitimerRealOk = true)
    (h7 : sys.setrlimitCpuOk = true) :
    ((arch_launchChild hfuzz fileName sys).1.filter isTimeoutArm) =
      (if hfuzz.tmOut = 0 then [] else
        [LEvent.setitimerProf ⟨⟨hfuzz.tmOut, 0⟩, ⟨0, 0⟩⟩,
         LEvent.setitimerReal ⟨⟨hfuzz.tmOut * 2, 0⟩, ⟨0, 0⟩⟩,
         LEvent.setrlimitCpu ⟨hfuzz.tmOut * 2, hfuzz.tmOut * 2⟩]) := by
  unfold arch_launchChild
  rw [armTimeouts_of_ok hfuzz.tmOut sys h5 h6 h7]
  simp only [h1, h2, h3, h4]
  split_ifs <;>
    simp_all [List.filter_append, limitAddressSpace_no_timeout_arm, isTimeoutArm,
              apply_ite (List.filter isTimeoutArm)]

/-- Claim C1 witness: timeout 5, all calls succeeding. -/
theorem c1_timeout_arming_witness :
    (sysAllOk.setenvMallocOk = true ∧ sysAllOk.setenvAsanOk = true ∧
     sysAllOk.prctlOk = true ∧ sysAllOk.personalityOk = true ∧
     sysAllOk.setitimerProfOk = true ∧ sysAllOk.setitimerRealOk = true ∧
     sysAllOk.setrlimitCpuOk = true) ∧
    ((arch_launchChild hfuzzTm5 "/tmp/case1" sysAllOk).1.filter isTimeoutArm) =
      (if hfuzzTm5.tmOut = 0 then [] else
        [LEvent.setitimerProf ⟨⟨hfuzzTm5.tmOut, 0⟩, ⟨0, 0⟩⟩,
         LEvent.setitimerReal ⟨⟨hfuzzTm5.tmOut * 2, 0⟩, ⟨0, 0⟩⟩,
         LEvent.setrlimitCpu ⟨hfuzzTm5.tmOut * 2, hfuzzTm5.tmOut * 2⟩]) :=
  ⟨⟨rfl, rfl, rfl, rfl, rfl, rfl, rfl⟩,
   c1_timeout_arming hfuzzTm5 "/tmp/case1" sysAllOk rfl rfl rfl rfl rfl rfl rfl⟩

/-- Claim C2 (code bug): at timeout 5 the launcher passes `it_value = {0,0}`
to both `setitimer` calls — only the `it_interval` fields carry 5 and 10.
By POSIX `setitimer` semantics a zero `it_value` disables the timer
(`it_interval` is only loaded when an armed timer expires), so neither the
CPU-time timer nor the wall-clock timer ever fires; the claim (and the
source's own comments, which say these timers "should trigger a signal")
expects a 5-second recurring CPU timer and a wall timer firing at 10
seconds. -/
theorem c2_timers_never_fire :
    ((arch_launchChild hfuzzTm5 "/tmp/case1" sysAllOk).1.filter isTimeoutArm) =
      [LEvent.setitimerProf ⟨⟨5, 0⟩, ⟨0, 0⟩⟩,
       LEvent.setitimerReal ⟨⟨10, 0⟩, ⟨0, 0⟩⟩,
       LEvent.setrlimitCpu ⟨10, 10⟩] ∧
    setitimerArms ⟨⟨5, 0⟩, ⟨0, 0⟩⟩ = false ∧
    setitimerArms ⟨⟨10, 0⟩, ⟨0, 0⟩⟩ = false := by decide

/-- Claim C9: if every step up to `execvp` succeeds and `execvp` fails, the
launcher's trace ends with the stdio-restore call followed by the fatal
log — stdio is restored before the fatal error is reported — and the
outcome is the failure result. -/
theorem c9_exec_failure_restores_stdio (hfuzz : Honggfuzz) (fileName : String)
    (sys : SysBehavior)
    (h1 : sys.setenvMallocOk = true) (h2 : sys.setenvAsanOk = true)
    (h3 : sys.prctlOk = true) (h4 : sys.personalityOk = true)
    (h5 : sys.setitimerProfOk = true) (h6 : sys.setitimerRealOk = true)
    (h7 : sys.setrlimitCpuOk = true) (h8 : sys.redirectStdinOk = true)
    (h9 : sys.ptraceEnableOk = true) (hexec : sys.execOk = false) :
    ∃ es, arch_launchChild hfuzz fileName sys =
      (es ++ [LEvent.recoverStdio, LEvent.logFatal "Failed to create new process"],
       LaunchOutcome.failed) := by
  unfold arch_launchChild
  rw [armTimeouts_of_ok hfuzz.tmOut sys h5 h6 h7]
  simp only [h1, h2, h3, h4, h8, h9, hexec, Bool.not_true, Bool.and_false, reduceIte]
  exact ⟨_, rfl⟩

/-- Claim C9 witness: the scenario configuration with `execvp` failing. -/
theorem c9_exec_failure_restores_stdio_witness :
    (sysExecFail.setenvMallocOk = true ∧ sysExecFail.setenvAsanOk = true ∧
     sysExecFail.prctlOk = true ∧ sysExecFail.personalityOk = true ∧
     sysExecFail.setitimerProfOk = true ∧ sysExecFail.setitimerRealOk = true ∧
     sysExecFail.setrlimitCpuOk = true ∧ sysExecFail.redirectStdinOk = true ∧
     sysExecFail.ptraceEnableOk = true ∧ sysExecFail.execOk = false) ∧
    ∃ es, arch_launchChild hfuzzTm5 "/tmp/case1" sysExecFail =
      (es ++ [LEvent.recoverStdio, LEvent.logFatal "Failed to create new process"],
       LaunchOutcome.failed) :=
  ⟨⟨rfl, rfl, rfl, rfl, rfl, rfl, rfl, rfl, rfl, rfl⟩,
   c9_exec_failure_restores_stdio hfuzzTm5 "/tmp/case1" sysExecFail
     rfl rfl rfl rfl rfl rfl rfl rfl rfl rfl⟩

/-- Prefixing events commutes with taking the event list. -/
@[simp] theorem ReapResult.events_addEvents (es : List REvent) (r : ReapResult) :
    (r.addEvents es).events = es ++ r.events := by
  cases r <;> rfl

/-- Once `perfEnabled` is true, the rest of the reaper loop never calls the
instrumentation-activate collaborator again. -/
theorem reapGo_enabled_no_activate (eo : Int → Bool) (ef : Int → Nat)
    (cl : Int → Int → Bool) (ws : List WaitRes) :
    ((reapGo eo ef cl true ws).events.filter isActivate) = [] := by
  induction ws with
  | nil => rfl
  | cons w rest ih =>
      cases w with
      | nonpos => simpa [reapGo] using ih
      | change pid status =>
          by_cases hc : cl status pid = true
          · simp [reapGo, hc, ReapResult.events, isActivate]
          · have hstep : reapGo eo ef cl true (WaitRes.change pid status :: rest) =
                (reapGo eo ef cl true rest).addEvents
                  [REvent.logDebugStatus pid status, REvent.ptraceAnalyze status pid] := by
              simp [reapGo, hc]
            rw [hstep, ReapResult.events_addEvents]
            simp [List.filter_append, isActivate, ih]

/-- Inversion: a prefixed outcome is `done` exactly when the underlying
outcome is, with the events concatenated. -/
theorem addEvents_eq_done (es0 : List REvent) (r : ReapResult) (es : List REvent)
    (h : r.addEvents es0 = ReapResult.done es) :
    ∃ es1, r = ReapResult.done es1 ∧ es = es0 ++ es1 := by
  cases r with
  | done es2 =>
      refine ⟨es2, rfl, ?_⟩
      simpa [ReapResult.addEvents] using h.symm
  | fatal es2 => simp [ReapResult.addEvents] at h
  | blocked es2 => simp [ReapResult.addEvents] at h

/-- Whenever the reaper loop returns (`done`), its trace ends with a
trace-analysis call that the collaborator classified as terminal, followed
by the perf-analysis call. -/
theorem reapGo_done_shape (eo : Int → Bool) (ef : Int → Nat)
    (cl : Int → Int → Bool) (ws : List WaitRes) :
    ∀ b es, reapGo eo ef cl b ws = ReapResult.done es →
      ∃ es0 s p fd, es = es0 ++ [REvent.ptraceAnalyze s p, REvent.perfAnalyze fd] ∧
        cl s p = true := by
  induction ws with
  | nil => intro b es h; simp [reapGo] at h
  | cons w rest ih =>
      intro b es h
      cases w with
      | nonpos => exact ih b es (by simpa [reapGo] using h)
      | change pid status =>
          cases b with
          | true =>
              by_cases hc : cl status pid = true
              · simp [reapGo, hc] at h
                exact ⟨[REvent.logDebugStatus pid status], status, pid, none, by simp [h], hc⟩
              · have hstep : reapGo eo ef cl true (WaitRes.change pid status :: rest) =
                    (reapGo eo ef cl true rest).addEvents
                      [REvent.logDebugStatus pid status, REvent.ptraceAnalyze status pid] := by
                  simp [reapGo, hc]
                rw [hstep] at h
                rcases addEvents_eq_done _ _ _ h with ⟨es1, hdone, rfl⟩
                rcases ih true es1 hdone with ⟨es0, s, p, fd, rfl, hcl⟩
                exact ⟨[REvent.logDebugStatus pid status, REvent.ptraceAnalyze status pid] ++ es0,
                       s, p, fd, by simp, hcl⟩
          | false =>
              by_cases he : eo pid = true
              · by_cases hc : cl status pid = true
                · simp [reapGo, he, hc] at h
                  exact ⟨[REvent.perfEnable pid (ef pid), REvent.logDebugStatus pid status],
                         status, pid, some (ef pid), by simp [h], hc⟩
                · have hstep : reapGo eo ef cl false (WaitRes.change pid status :: rest) =
                      (reapGo eo ef cl true rest).addEvents
                        [REvent.perfEnable pid (ef pid), REvent.logDebugStatus pid status,
                         REvent.ptraceAnalyze status pid] := by
                    simp [reapGo, he, hc]
                  rw [hstep] at h
                  rcases addEvents_eq_done _ _ _ h with ⟨es1, hdone, rfl⟩
                  rcases ih true es1 hdone with ⟨es0, s, p, fd, rfl, hcl⟩
                  exact ⟨[REvent.perfEnable pid (ef pid), REvent.logDebugStatus pid status,
                          REvent.ptraceAnalyze status pid] ++ es0,
                         s, p, fd, by simp, hcl⟩
              · simp [reapGo, he] at h

/-- Claim C5: in every reaper run that observes at least one state change,
the instrumentation-activate collaborator is called at most once, the call
happens on the first reaped state change (it is the very first collaborator
event of the run), and it is never called again afterwards, however many
non-terminal state changes precede the terminal one. -/
theorem c5_activate_once (eo : Int → Bool) (ef : Int → Nat) (cl : Int → Int → Bool)
    (ws : List WaitRes) (h : hasChange ws = true) :
    (((arch_reapChild eo ef cl ws).events.filter isActivate).length ≤ 1) ∧
    (((arch_reapChild eo ef cl ws).events.drop 1).filter isActivate = []) ∧
    (∃ e, (arch_reapChild eo ef cl ws).events.head? = some e ∧ isActivate e = true) := by
  induction ws with
  | nil => simp [hasChange] at h
  | cons w rest ih =>
      cases w with
      | nonpos =>
          have h2 : hasChange rest = true := by simpa [hasChange] using h
          simpa [arch_reapChild, reapGo] using ih h2
      | change pid status =>
          by_cases he : eo pid = true
          · by_cases hc : cl status pid = true
            · simp [arch_reapChild, reapGo, he, hc, ReapResult.events, isActivate]
            · have hstep : reapGo eo ef cl false (WaitRes.change pid status :: rest) =
                  (reapGo eo ef cl true rest).addEvents
                    [REvent.perfEnable pid (ef pid), REvent.logDebugStatus pid status,
                     REvent.ptraceAnalyze status pid] := by
                simp [reapGo, he, hc]
              unfold arch_reapChild
              rw [hstep, ReapResult.events_addEvents]
              refine ⟨?_, ?_, ?_⟩
              · simp [List.filter_append, isActivate, reapGo_enabled_no_activate]
              · simp [List.filter_append, isActivate, reapGo_enabled_no_activate]
              · simp [isActivate]
          · simp [arch_reapChild, reapGo, he, ReapResult.events, isActivate]

/-- Claim C5 witness: a run with one non-terminal and one terminal state
change. -/
theorem c5_activate_once_witness :
    (hasChange [WaitRes.change 100 7, WaitRes.change 100 15] = true) ∧
    ((((arch_reapChild (fun _ => true) (fun _ => 42) (fun s _ => s == 15)
          [WaitRes.change 100 7, WaitRes.change 100 15]).events.filter isActivate).length ≤ 1) ∧
     (((arch_reapChild (fun _ => true) (fun _ => 42) (fun s _ => s == 15)
          [WaitRes.change 100 7, WaitRes.change 100 15]).events.drop 1).filter isActivate = []) ∧
     (∃ e, (arch_reapChild (fun _ => true) (fun _ => 42) (fun s _ => s == 15)
          [WaitRes.change 100 7, WaitRes.change 100 15]).events.head? = some e ∧
        isActivate e = true)) :=
  ⟨by decide,
   c5_activate_once (fun _ => true) (fun _ => 42) (fun s _ => s == 15)
     [WaitRes.change 100 7, WaitRes.change 100 15] (by decide)⟩

/-- When every activation succeeds, the reaper loop returns (`done`) from
either loop state as soon as its wait results contain a state change that
the trace-analysis collaborator classifies terminal — also after any
number of intervening non-terminal changes or non-positive wait returns. -/
theorem reapGo_terminal_returns (eo : Int → Bool) (ef : Int → Nat)
    (cl : Int → Int → Bool) (he : ∀ p, eo p = true) (ws : List WaitRes) :
    ∀ b : Bool,
      (∃ w ∈ ws, ∃ p s, w = WaitRes.change p s ∧ cl s p = true) →
      ∃ es, reapGo eo ef cl b ws = ReapResult.done es := by
  induction ws with
  | nil =>
      intro b h
      rcases h with ⟨w, hw, _⟩
      simp at hw
  | cons w rest ih =>
      intro b h
      cases w with
      | nonpos =>
          have h2 : ∃ w ∈ rest, ∃ p s, w = WaitRes.change p s ∧ cl s p = true := by
            rcases h with ⟨w, hw, p, s, hws, hcl⟩
            rcases List.mem_cons.1 hw with hww | hmem
            · rw [hww] at hws
              cases hws
            · exact ⟨w, hmem, p, s, hws, hcl⟩
          rcases ih b h2 with ⟨es, hes⟩
          exact ⟨es, by simpa [reapGo] using hes⟩
      | change pid status =>
          by_cases hc : cl status pid = true
          · cases b with
            | true =>
                exact ⟨[REvent.logDebugStatus pid status, REvent.ptraceAnalyze status pid,
                        REvent.perfAnalyze none], by simp [reapGo, hc]⟩
            | false =>
                exact ⟨[REvent.perfEnable pid (ef pid), REvent.logDebugStatus pid status,
                        REvent.ptraceAnalyze status pid, REvent.perfAnalyze (some (ef pid))],
                       by simp [reapGo, he pid, hc]⟩
          · have h2 : ∃ w ∈ rest, ∃ p s, w = WaitRes.change p s ∧ cl s p = true := by
              rcases h with ⟨w, hw, p, s, hws, hcl⟩
              rcases List.mem_cons.1 hw with hww | hmem
              · rw [hww] at hws
                injection hws with hp hs
                subst hp
                subst hs
                exact absurd hcl hc
              · exact ⟨w, hmem, p, s, hws, hcl⟩
            rcases ih true h2 with ⟨es, hes⟩
            cases b with
            | true =>
                refine ⟨[REvent.logDebugStatus pid status,
                         REvent.ptraceAnalyze status pid] ++ es, ?_⟩
                have hstep : reapGo eo ef cl true (WaitRes.change pid status :: rest) =
                    (reapGo eo ef cl true rest).addEvents
                      [REvent.logDebugStatus pid status, REvent.ptraceAnalyze status pid] := by
                  simp [reapGo, hc]
                rw [hstep, hes]
                rfl
            | false =>
                refine ⟨[REvent.perfEnable pid (ef pid), REvent.logDebugStatus pid status,
                         REvent.ptraceAnalyze status pid] ++ es, ?_⟩
                have hstep : reapGo eo ef cl false (WaitRes.change pid status :: rest) =
                    (reapGo eo ef cl true rest).addEvents
                      [REvent.perfEnable pid (ef pid), REvent.logDebugStatus pid status,
                       REvent.ptraceAnalyze status pid] := by
                  simp [reapGo, he pid, hc]
                rw [hstep, hes]
                rfl

/-- Claim C6: the reaper returns to its caller if and only if the
trace-analysis collaborator classified the most recently observed state
change as terminal, in every loop state (`perfEnabled` false or true, so
in particular after intervening non-terminal changes).  Clauses: (i) a
non-positive wait return is retried, changing nothing, in either state;
(ii) whenever the loop returns (`done`), from either state, its trace ends
with an analysis call the collaborator classified terminal (only if);
(iii)/(iv) a state change classified non-terminal makes the loop block
again on the remaining wait results, in the monitoring state and in the
initial state; (v)/(vi) a state change classified terminal makes the loop
return at once, in the monitoring state and in the initial state;
(vii)/(viii) if the wait results contain any terminally-classified state
change (activation succeeding), the loop — and `arch_reapChild` — does
return. -/
theorem c6_return_iff_terminal (eo : Int → Bool) (ef : Int → Nat)
    (cl : Int → Int → Bool) (ws : List WaitRes) :
    (∀ b, reapGo eo ef cl b (WaitRes.nonpos :: ws) = reapGo eo ef cl b ws) ∧
    (∀ b es, reapGo eo ef cl b ws = ReapResult.done es →
        ∃ es0 s p fd, es = es0 ++ [REvent.ptraceAnalyze s p, REvent.perfAnalyze fd] ∧
          cl s p = true) ∧
    (∀ p s rest, ws = WaitRes.change p s :: rest → cl s p = false →
        reapGo eo ef cl true ws =
          (reapGo eo ef cl true rest).addEvents
            [REvent.logDebugStatus p s, REvent.ptraceAnalyze s p]) ∧
    (∀ p s rest, ws = WaitRes.change p s :: rest → eo p = true → cl s p = false →
        arch_reapChild eo ef cl ws =
          (reapGo eo ef cl true rest).addEvents
            [REvent.perfEnable p (ef p), REvent.logDebugStatus p s,
             REvent.ptraceAnalyze s p]) ∧
    (∀ p s rest, ws = WaitRes.change p s :: rest → cl s p = true →
        reapGo eo ef cl true ws =
          ReapResult.done [REvent.logDebugStatus p s, REvent.ptraceAnalyze s p,
                           REvent.perfAnalyze none]) ∧
    (∀ p s rest, ws = WaitRes.change p s :: rest → eo p = true → cl s p = true →
        arch_reapChild eo ef cl ws =
          ReapResult.done [REvent.perfEnable p (ef p), REvent.logDebugStatus p s,
                           REvent.ptraceAnalyze s p, REvent.perfAnalyze (some (ef p))]) ∧
    (∀ b, (∀ p, eo p = true) →
        (∃ w ∈ ws, ∃ p s, w = WaitRes.change p s ∧ cl s p = true) →
        ∃ es, reapGo eo ef cl b ws = ReapResult.done es) ∧
    ((∀ p, eo p = true) →
        (∃ w ∈ ws, ∃ p s, w = WaitRes.change p s ∧ cl s p = true) →
        ∃ es, arch_reapChild eo ef cl ws = ReapResult.done es) := by
  refine ⟨fun b => by cases b <;> simp [reapGo],
          fun b es h => reapGo_done_shape eo ef cl ws b es h,
          ?_, ?_, ?_, ?_,
          fun b he hterm => reapGo_terminal_returns eo ef cl he ws b hterm,
          fun he hterm => reapGo_terminal_returns eo ef cl he ws false hterm⟩
  · rintro p s rest rfl hc
    simp [reapGo, hc]
  · rintro p s rest rfl he hc
    simp [arch_reapChild, reapGo, he, hc]
  · rintro p s rest rfl hc
    simp [reapGo, hc]
  · rintro p s rest rfl he hc
    simp [arch_reapChild, reapGo, he, hc]

/-- Claim C6 witness: a non-terminal state change followed by a terminal
one — the reaper returns, and its trace ends with the terminally-classified
analysis call; the intermediate non-terminal verdict made it block again
rather than return. -/
theorem c6_return_iff_terminal_witness :
    (∀ p : Int, (fun _ : Int => true) p = true) ∧
    (∃ w ∈ [WaitRes.change 100 7, WaitRes.change 100 15], ∃ p s,
        w = WaitRes.change p s ∧ ((fun s _ => s == 15) : Int → Int → Bool) s p = true) ∧
    (∃ es, arch_reapChild (fun _ => true) (fun _ => 42) (fun s _ => s == 15)
        [WaitRes.change 100 7, WaitRes.change 100 15] = ReapResult.done es) :=
  ⟨fun _ => rfl,
   ⟨WaitRes.change 100 15, by decide, 100, 15, rfl, by decide⟩,
   (c6_return_iff_terminal (fun _ => true) (fun _ => 42) (fun s _ => s == 15)
       [WaitRes.change 100 7, WaitRes.change 100 15]).2.2.2.2.2.2.2
     (fun _ => rfl)
     ⟨WaitRes.change 100 15, by decide, 100, 15, rfl, by decide⟩⟩

/-- Claim C4 (code bug): in the source `int perfFd;` is declared inside the
`for (;;)` body, so the descriptor written by `arch_perfEnable` in the
first iteration is out of scope by the time a later iteration reaches the
terminal classification: there `arch_perfAnalyze` receives a freshly
declared, uninitialized `perfFd` (modelled as `none`), not the handle the
activation produced (42).  With one non-terminal state change before the
terminal one, the analysis call gets `none`, and the handle `some 42` never
reaches it, contrary to the claim. -/
theorem c4_uninitialized_handle :
    arch_reapChild (fun _ => true) (fun _ => 42) (fun s _ => s == 15)
        [WaitRes.change 100 7, WaitRes.change 100 15] =
      ReapResult.done [REvent.perfEnable 100 42, REvent.logDebugStatus 100 7,
                       REvent.ptraceAnalyze 7 100, REvent.logDebugStatus 100 15,
                       REvent.ptraceAnalyze 15 100, REvent.perfAnalyze none] ∧
    REvent.perfAnalyze (some 42) ∉
      (arch_reapChild (fun _ => true) (fun _ => 42) (fun s _ => s == 15)
        [WaitRes.change 100 7, WaitRes.change 100 15]).events := by
  constructor
  · decide
  · decide
